import Mathlib

/-!
Verification of `serve.py`, a minimal local static-file HTTP server that
injects two cross-origin-isolation response headers into every response,
corrects five MIME-type table entries at startup, parses an optional port
argument, and binds a threading HTTP server to the loopback address.

The Python source is shallowly embedded below: the header buffer and the
wire-level response are explicit lists, the process-wide MIME table is a
function from extension strings to optional content-type strings, and the
top-level script body is a sequence of explicit effects.
-/

namespace Serve

/-- One response header: a name/value pair, as passed to `send_header`. -/
structure Header where
  name : String
  value : String
deriving DecidableEq, Repr

/-- One item of the wire-level byte stream of an HTTP response, at the
granularity the claims need: the status line, one header line, the blank
line terminating the header section, or one body byte. -/
inductive WireItem where
  | statusLine (code : Nat) (reason : String)
  | headerLine (name value : String)
  | blankLine
  | bodyByte (b : Nat)
deriving DecidableEq, Repr

/-- The header line `send_header` would emit for a buffered header. -/
def headerLineOf (h : Header) : WireItem :=
  WireItem.headerLine h.name h.value

/-- Embeds `BaseHTTPRequestHandler.end_headers` (the superclass behaviour
reached by `super().end_headers()` on line 17 of serve.py): flush the
buffered header lines and emit the blank line that terminates the header
section. -/
def base_end_headers (buf : List Header) : List WireItem :=
  buf.map headerLineOf ++ [WireItem.blankLine]

/-- Embeds `COOPCOEPHandler.end_headers` (serve.py lines 13-17): append
`Cross-Origin-Opener-Policy: same-origin` and then
`Cross-Origin-Embedder-Policy: credentialless` to the header buffer via
`send_header`, then delegate to the superclass finalization. -/
def coopcoep_end_headers (buf : List Header) : List WireItem :=
  base_end_headers (buf ++
    [⟨"Cross-Origin-Opener-Policy", "same-origin"⟩,
     ⟨"Cross-Origin-Embedder-Policy", "credentialless"⟩])

/-- The wire line carrying the injected Cross-Origin-Opener-Policy header. -/
def coopLine : WireItem :=
  WireItem.headerLine "Cross-Origin-Opener-Policy" "same-origin"

/-- The wire line carrying the injected Cross-Origin-Embedder-Policy header. -/
def coepLine : WireItem :=
  WireItem.headerLine "Cross-Origin-Embedder-Policy" "credentialless"

/-- One response as computed by the underlying file-serving logic before
header finalization: status code, reason phrase, the headers it buffered
via `send_header`, and the body bytes it streams after `end_headers`. -/
structure BaseResponse where
  code : Nat
  reason : String
  headers : List Header
  body : List Nat
deriving DecidableEq, Repr

/-- The wire output of a response when header finalization uses the given
`end_headers` implementation: status line, finalized header block, then
the streamed body bytes. -/
def emitWith (endH : List Header → List WireItem) (r : BaseResponse) :
    List WireItem :=
  WireItem.statusLine r.code r.reason :: endH r.headers ++ r.body.map WireItem.bodyByte

/-- The wire output of the unwrapped `SimpleHTTPRequestHandler`. -/
def unwrapped (r : BaseResponse) : List WireItem :=
  emitWith base_end_headers r

/-- The wire output of `COOPCOEPHandler`, whose only override is
`end_headers`. -/
def wrapped (r : BaseResponse) : List WireItem :=
  emitWith coopcoep_end_headers r

/-- Whether a wire item is not the blank header-terminating line. -/
def notBlank : WireItem → Bool
  | WireItem.blankLine => false
  | _ => true

/-- The wire items strictly before the blank line: the status line and the
header lines of the response head. -/
def headPart (w : List WireItem) : List WireItem :=
  w.takeWhile notBlank

/-- The wire items from the blank line on: the header terminator and the
body bytes. -/
def tailPart (w : List WireItem) : List WireItem :=
  w.dropWhile notBlank

/-- The last two wire items before the blank line, in emission order. -/
def lastTwoHeadLines (w : List WireItem) : List WireItem :=
  ((headPart w).reverse.take 2).reverse

/-- The status code and reason of a wire stream, read off its first item. -/
def statusOf (w : List WireItem) : Option (Nat × String) :=
  match w with
  | WireItem.statusLine c s :: _ => some (c, s)
  | _ => none

/-- The body bytes of a wire stream. -/
def bodyOf (w : List WireItem) : List Nat :=
  w.filterMap (fun x => match x with
    | WireItem.bodyByte b => some b
    | _ => none)

/-- How many header lines of the wire stream carry the given name. -/
def countHeaderName (n : String) (w : List WireItem) : Nat :=
  w.countP (fun x => match x with
    | WireItem.headerLine n0 _ => n0 == n
    | _ => false)

/-- How many header lines of the wire stream carry the given name and
value. -/
def countHeaderNameValue (n v : String) (w : List WireItem) : Nat :=
  w.countP (fun x => match x with
    | WireItem.headerLine n0 v0 => n0 == n && v0 == v
    | _ => false)

/-- A concrete 404 error response as the underlying handler would buffer
it, used as a concrete input for witnesses and counterexamples. -/
def sample404 : BaseResponse :=
  { code := 404
    reason := "Not Found"
    headers :=
      [⟨"Server", "SimpleHTTP/0.6"⟩,
       ⟨"Content-Type", "text/html;charset=utf-8"⟩,
       ⟨"Content-Length", "14"⟩]
    body := [78, 111, 116, 32, 70, 111, 117, 110, 100] }

/-- Embeds `mimetypes.add_type(type, ext)`: upsert one entry of the
process-wide extension-to-MIME-type table, keyed by the extension. The
table is a mapping from extension (leading dot included) to an optional
content-type string. -/
def add_type (table : String → Option String) (typ ext : String) :
    String → Option String :=
  fun e => if e = ext then some typ else table e

/-- Embeds the five `mimetypes.add_type` calls of serve.py lines 6-10,
applied in source order to whatever platform-default table the process
started with. -/
def startupMimeTable (default : String → Option String) :
    String → Option String :=
  add_type
    (add_type
      (add_type
        (add_type
          (add_type default "application/javascript" ".js")
          "application/javascript" ".mjs")
        "application/wasm" ".wasm")
      "application/json" ".map")
    "application/json" ".json"

/-- Whether a character is whitespace that Python's `int` constructor
strips from the ends of its string argument. -/
def isPySpace (c : Char) : Bool :=
  c == ' ' || c == '\t' || c == '\n' || c == '\x0B' || c == '\x0C' || c == '\r'

/-- Strip Python-int whitespace from both ends of a character list. -/
def stripWs (s : List Char) : List Char :=
  ((s.dropWhile isPySpace).reverse.dropWhile isPySpace).reverse

/-- The numeric value of a decimal digit character. -/
def digitVal (c : Char) : Nat :=
  c.toNat - 48

/-- Continue parsing a Python decimal digit run after its first digit:
each further digit may be preceded by a single underscore separator, and
the run may not end in an underscore. -/
def parseDigitsRest (acc : Nat) : List Char → Option Nat
  | [] => some acc
  | '_' :: c :: cs =>
      if c.isDigit then parseDigitsRest (acc * 10 + digitVal c) cs else none
  | c :: cs =>
      if c.isDigit then parseDigitsRest (acc * 10 + digitVal c) cs else none

/-- Parse a full Python decimal digit run: at least one digit, with
single underscores allowed between digits. -/
def parseDigits : List Char → Option Nat
  | [] => none
  | c :: cs => if c.isDigit then parseDigitsRest (digitVal c) cs else none

/-- Embeds Python's `int(s)` on a string argument (the conversion used on
serve.py line 21): strip whitespace from both ends, accept one optional
sign, then require a non-empty decimal digit run with optional single
underscore separators; any other input raises `ValueError`, modelled as
`none`. -/
def pythonInt (s : String) : Option Int :=
  match stripWs s.data with
  | '+' :: rest => (parseDigits rest).map (fun n => (n : Int))
  | '-' :: rest => (parseDigits rest).map (fun n => -(n : Int))
  | rest => (parseDigits rest).map (fun n => (n : Int))

/-- Embeds serve.py line 21,
`port = int(sys.argv[1]) if len(sys.argv) > 1 else 8000`: `argv` is the
full argument vector including the program name; a missing argument
yields the default port 8000, a present argument is converted with
Python's `int`, and `none` is the `ValueError` raised on a non-integer
argument. -/
def parsePort : List String → Option Int
  | _ :: a :: _ => pythonInt a
  | _ => some (8000 : Int)

/-- One observable effect of the top-level script body. -/
inductive Effect where
  | printLine (s : String)
  | createAndBindSocket (addr : String) (port : Int)
  | serveForever
deriving DecidableEq, Repr

/-- Whether an effect creates and binds the server socket. -/
def isBindEffect : Effect → Bool
  | Effect.createAndBindSocket _ _ => true
  | _ => false

/-- Whether an effect prints a line to standard output. -/
def isPrintEffect : Effect → Bool
  | Effect.printLine _ => true
  | _ => false

/-- The startup line announcing the server URL (serve.py line 22). -/
def urlLine (port : Int) : String :=
  "伺服器運行在 http://127.0.0.1:" ++ toString port ++ "/"

/-- The startup line announcing the MIME corrections (serve.py line 23). -/
def mimeLine : String :=
  "MIME types 已修正: .js/.mjs → application/javascript, .wasm → application/wasm"

/-- Embeds the `__main__` block of serve.py (lines 19-25) as the sequence
of effects it performs in order: parse the port (raising on a bad
argument, in which case nothing below runs), print the two startup lines,
construct the `ThreadingHTTPServer` bound to `("127.0.0.1", port)`, and
run `serve_forever`. -/
def mainEffects (argv : List String) : Option (List Effect) :=
  (parsePort argv).map (fun p =>
    [Effect.printLine (urlLine p),
     Effect.printLine mimeLine,
     Effect.createAndBindSocket "127.0.0.1" p,
     Effect.serveForever])

/-- The server classes the source chooses between on serve.py line 3. -/
inductive ServerClass where
  | threadingHTTPServer
  | httpServer
deriving DecidableEq, Repr

/-- Modelled from the spec: the stdlib `ThreadingHTTPServer` mixes in
`ThreadingMixIn`, which handles each accepted connection on its own new
thread, while the plain `HTTPServer` processes connections serially on
the accepting thread. This semantic flag records that documented
contract, which is outside src/. -/
def handlesEachConnectionOnOwnThread : ServerClass → Bool
  | ServerClass.threadingHTTPServer => true
  | ServerClass.httpServer => false

/-- The server class serve.py line 25 instantiates. -/
def mainServerClass : ServerClass :=
  ServerClass.threadingHTTPServer

/-- The process state visible to request handling: the process-wide
extension-to-MIME-type table is the only shared mutable datum. -/
structure ProcState where
  mimeTable : String → Option String

/-- Embeds `mimetypes.guess_type`'s table lookup as the file-serving
logic uses it: read the table at the file's extension, with the generic
fallback content type when the extension is unknown. -/
def guessType (table : String → Option String) (ext : String) : String :=
  (table ext).getD "application/octet-stream"

/-- One incoming request, at the granularity the handler observes: the
extension of the resolved file, whether the file exists, and its bytes. -/
structure Request where
  ext : String
  found : Bool
  fileBytes : List Nat
deriving DecidableEq, Repr

/-- Embeds one request handled by `COOPCOEPHandler`: the inherited
`SimpleHTTPRequestHandler` logic reads the MIME table to choose the
Content-Type and builds a 200 or 404 response, and the overridden
`end_headers` injects the two headers. The process state is returned
alongside the response; the handler only ever reads the table. -/
def handleRequest (s : ProcState) (q : Request) : ProcState × List WireItem :=
  if q.found then
    (s, wrapped
      { code := 200
        reason := "OK"
        headers := [⟨"Content-Type", guessType s.mimeTable q.ext⟩]
        body := q.fileBytes })
  else
    (s, wrapped
      { code := 404
        reason := "Not Found"
        headers := [⟨"Content-Type", "text/html;charset=utf-8"⟩]
        body := [] })

/-- The request-serving phase: handle each incoming request in turn,
threading the process state through. -/
def serveLoop (s : ProcState) : List Request → ProcState
  | [] => s
  | q :: qs => serveLoop (handleRequest s q).1 qs

/-- Any predicate false on every buffered header line counts zero over
the emitted header lines of that buffer. -/
theorem countP_headmap_zero (pred : WireItem → Bool) (hs : List Header)
    (h : ∀ hd ∈ hs, pred (headerLineOf hd) = false) :
    (hs.map headerLineOf).countP pred = 0 := by
  rw [List.countP_eq_zero]
  intro x hx
  rcases List.mem_map.mp hx with ⟨hd, hhd, rfl⟩
  simp [h hd hhd]

/-- A predicate false on every body byte counts zero over the streamed
body. -/
theorem countP_bodymap_zero (pred : WireItem → Bool)
    (h : ∀ b, pred (WireItem.bodyByte b) = false) (bs : List Nat) :
    (bs.map WireItem.bodyByte).countP pred = 0 := by
  rw [List.countP_eq_zero]
  intro x hx
  rcases List.mem_map.mp hx with ⟨b, _, rfl⟩
  simp [h b]

/-- Splitting a finalized header block at the blank line recovers the
emitted header lines and the remainder. -/
theorem takeWhile_dropWhile_headmap (hs : List Header) (rest : List WireItem) :
    (hs.map headerLineOf ++ WireItem.blankLine :: rest).takeWhile notBlank
      = hs.map headerLineOf ∧
    (hs.map headerLineOf ++ WireItem.blankLine :: rest).dropWhile notBlank
      = WireItem.blankLine :: rest := by
  induction hs with
  | nil => simp [List.takeWhile, List.dropWhile, notBlank]
  | cons hd tl ih =>
    simp [List.takeWhile, List.dropWhile, notBlank, headerLineOf, ih.1, ih.2]

/-- The unwrapped wire output, split at the blank line: head part is the
status line plus the base header lines; tail part is the blank line plus
the body bytes. -/
theorem unwrapped_split (r : BaseResponse) :
    headPart (unwrapped r) =
      WireItem.statusLine r.code r.reason :: r.headers.map headerLineOf ∧
    tailPart (unwrapped r) =
      WireItem.blankLine :: r.body.map WireItem.bodyByte := by
  have h := takeWhile_dropWhile_headmap r.headers (r.body.map WireItem.bodyByte)
  constructor
  · show (unwrapped r).takeWhile notBlank = _
    simp only [unwrapped, emitWith, base_end_headers]
    rw [List.cons_append, List.append_assoc, List.singleton_append,
      List.takeWhile_cons_of_pos (by rfl)]
    rw [h.1]
  · show (unwrapped r).dropWhile notBlank = _
    simp only [unwrapped, emitWith, base_end_headers]
    rw [List.cons_append, List.append_assoc, List.singleton_append,
      List.dropWhile_cons_of_pos (by rfl)]
    rw [h.2]

/-- Request-phase state preservation: request handling never writes the
MIME table, so the serve loop leaves it untouched from any state. -/
theorem serveLoop_mimeTable (qs : List Request) :
    ∀ s : ProcState, (serveLoop s qs).mimeTable = s.mimeTable := by
  induction qs with
  | nil => intro s; rfl
  | cons q qs ih =>
    intro s
    rw [serveLoop, ih]
    unfold handleRequest
    split <;> rfl

end Serve

namespace Serve

/-- C1: for every response the server produces — error responses such as
404 included — the finalized wire output contains exactly one
Cross-Origin-Embedder-Policy header, with value credentialless, and
exactly one Cross-Origin-Opener-Policy header, with value same-origin,
because the injection happens in the shared `end_headers` finalization
step. The hypothesis records that the underlying file-serving handler
never buffers either of these two header names itself. -/
theorem claim1_exactly_one_coep_coop (r : BaseResponse)
    (h : r.headers.all (fun hd =>
      !(hd.name == "Cross-Origin-Embedder-Policy") &&
      !(hd.name == "Cross-Origin-Opener-Policy")) = true) :
    countHeaderName "Cross-Origin-Embedder-Policy" (wrapped r) = 1 ∧
    countHeaderNameValue "Cross-Origin-Embedder-Policy" "credentialless"
      (wrapped r) = 1 ∧
    countHeaderName "Cross-Origin-Opener-Policy" (wrapped r) = 1 ∧
    countHeaderNameValue "Cross-Origin-Opener-Policy" "same-origin"
      (wrapped r) = 1 := by
  simp only [List.all_eq_true, Bool.and_eq_true, Bool.not_eq_eq_eq_not,
    Bool.not_true, beq_eq_false_iff_ne, ne_eq] at h
  refine ⟨?_, ?_, ?_, ?_⟩ <;>
  · simp only [countHeaderName, countHeaderNameValue, wrapped, emitWith,
      coopcoep_end_headers, base_end_headers, List.map_append,
      List.countP_cons, List.countP_append]
    rw [countP_headmap_zero _ r.headers, countP_bodymap_zero]
    · simp [headerLineOf]
    · intro b; rfl
    · intro hd hhd
      simp [headerLineOf, (h hd hhd).1, (h hd hhd).2]

/-- C1 witness: the theorem applied to the concrete 404 response. -/
theorem claim1_witness :
    sample404.headers.all (fun hd =>
      !(hd.name == "Cross-Origin-Embedder-Policy") &&
      !(hd.name == "Cross-Origin-Opener-Policy")) = true ∧
    (countHeaderName "Cross-Origin-Embedder-Policy" (wrapped sample404) = 1 ∧
     countHeaderNameValue "Cross-Origin-Embedder-Policy" "credentialless"
       (wrapped sample404) = 1 ∧
     countHeaderName "Cross-Origin-Opener-Policy" (wrapped sample404) = 1 ∧
     countHeaderNameValue "Cross-Origin-Opener-Policy" "same-origin"
       (wrapped sample404) = 1) :=
  ⟨by decide, claim1_exactly_one_coep_coop sample404 (by decide)⟩

/-- C2 counterexample: on the concrete 404 response, the two wire items
immediately before the blank line are the Cross-Origin-Opener-Policy line
followed by the Cross-Origin-Embedder-Policy line — not, as the claim
states, the Cross-Origin-Embedder-Policy line first. -/
theorem claim2_counterexample :
    lastTwoHeadLines (wrapped sample404) ≠ [coepLine, coopLine] ∧
    lastTwoHeadLines (wrapped sample404) = [coopLine, coepLine] := by
  decide

/-- C2 as amended: when the header block of any response is finalized,
the two injected headers are emitted immediately before the blank line
terminating the header section, in the order first
`Cross-Origin-Opener-Policy: same-origin`, then
`Cross-Origin-Embedder-Policy: credentialless` — the reverse of the order
the spec lists. -/
theorem claim2_injected_order (r : BaseResponse) :
    wrapped r =
      WireItem.statusLine r.code r.reason :: r.headers.map headerLineOf
        ++ [coopLine, coepLine, WireItem.blankLine]
        ++ r.body.map WireItem.bodyByte := by
  simp [wrapped, emitWith, coopcoep_end_headers, base_end_headers,
    coopLine, coepLine, headerLineOf]

/-- C3: after the startup corrections of serve.py lines 6-10, looking up
each of the five extensions in the process-wide table yields exactly the
corrected content type, whatever platform-default table the process
started with. -/
theorem claim3_mime_overrides (default : String → Option String) :
    startupMimeTable default ".js" = some "application/javascript" ∧
    startupMimeTable default ".mjs" = some "application/javascript" ∧
    startupMimeTable default ".wasm" = some "application/wasm" ∧
    startupMimeTable default ".map" = some "application/json" ∧
    startupMimeTable default ".json" = some "application/json" := by
  refine ⟨?_, ?_, ?_, ?_, ?_⟩ <;> simp [startupMimeTable, add_type]

/-- C4: with no command-line argument the port is 8000; with argument
"9090" it is 9090; and the parse step raises (yields `none`, so that
nothing further in the script body runs) exactly when an argument is
present and is not a valid Python integer string. -/
theorem claim4_port_selection (prog a : String) (rest : List String) :
    parsePort [prog] = some 8000 ∧
    parsePort (prog :: "9090" :: rest) = some 9090 ∧
    (parsePort (prog :: a :: rest) = none ↔ pythonInt a = none) ∧
    (pythonInt a = none → mainEffects (prog :: a :: rest) = none) := by
  refine ⟨rfl, ?_, Iff.rfl, ?_⟩
  · show pythonInt "9090" = some 9090
    decide
  · intro h
    simp [mainEffects, parsePort, h]

/-- C4 witness: the theorem at the concrete argument vectors, with "abc"
as the non-numeric argument. -/
theorem claim4_witness :
    parsePort ["serve.py"] = some 8000 ∧
    parsePort ["serve.py", "9090"] = some 9090 ∧
    (parsePort ["serve.py", "abc"] = none ↔ pythonInt "abc" = none) ∧
    (pythonInt "abc" = none → mainEffects ["serve.py", "abc"] = none) :=
  claim4_port_selection "serve.py" "abc" []

/-- C5: on every launch, any socket the script creates and binds is bound
to the string "127.0.0.1" — never to "0.0.0.0" or any other address. -/
theorem claim5_loopback_only (argv : List String) (es : List Effect)
    (a : String) (p : Int)
    (h : mainEffects argv = some es)
    (hm : Effect.createAndBindSocket a p ∈ es) :
    a = "127.0.0.1" := by
  rcases hp : parsePort argv with _ | q
  · simp only [mainEffects, hp, Option.map_none'] at h
    exact Option.noConfusion h
  · simp only [mainEffects, hp, Option.map_some', Option.some.injEq] at h
    subst h
    simp only [List.mem_cons, List.not_mem_nil, or_false] at hm
    rcases hm with h1 | h1 | h1 | h1 <;> first
      | (cases h1; rfl)
      | cases h1

/-- C5 witness: applying the theorem to the default launch, whose trace
binds 127.0.0.1 on port 8000. -/
theorem claim5_witness : ("127.0.0.1" : String) = "127.0.0.1" :=
  claim5_loopback_only ["serve.py"]
    [Effect.printLine (urlLine 8000), Effect.printLine mimeLine,
     Effect.createAndBindSocket "127.0.0.1" 8000, Effect.serveForever]
    "127.0.0.1" 8000 rfl (by decide)

/-- C6: wrapping the handler changes nothing except adding the two
headers: the wire output of the wrapped handler is the unwrapped output
with exactly the two injected header lines inserted immediately before
the blank line, and in particular the status line and the streamed body
bytes are identical. -/
theorem claim6_frame_effect (r : BaseResponse) :
    wrapped r =
      headPart (unwrapped r) ++ [coopLine, coepLine] ++ tailPart (unwrapped r) ∧
    statusOf (wrapped r) = statusOf (unwrapped r) ∧
    bodyOf (wrapped r) = bodyOf (unwrapped r) := by
  have hsplit := unwrapped_split r
  have h1 : wrapped r =
      headPart (unwrapped r) ++ [coopLine, coepLine] ++ tailPart (unwrapped r) := by
    rw [hsplit.1, hsplit.2]
    simp [wrapped, emitWith, coopcoep_end_headers, base_end_headers,
      coopLine, coepLine, headerLineOf]
  refine ⟨h1, rfl, ?_⟩
  have h2 : unwrapped r = headPart (unwrapped r) ++ tailPart (unwrapped r) :=
    (List.takeWhile_append_dropWhile notBlank (unwrapped r)).symm
  rw [h1]
  conv_rhs => rw [h2]
  simp [bodyOf, List.filterMap_append, coopLine, coepLine]

/-- C7: the MIME table is mutated only at startup; serving any sequence
of requests leaves the table exactly as the startup corrections left it,
so its contents are an invariant of the request-serving phase. -/
theorem claim7_mime_table_invariant (default : String → Option String)
    (qs : List Request) :
    (serveLoop ⟨startupMimeTable default⟩ qs).mimeTable =
      startupMimeTable default :=
  serveLoop_mimeTable qs ⟨startupMimeTable default⟩

/-- C8: the bootstrap instantiates the threading server variant, whose
contract handles each accepted connection on its own thread rather than
on a single-threaded event loop. -/
theorem claim8_threading_model :
    mainServerClass = ServerClass.threadingHTTPServer ∧
    handlesEachConnectionOnOwnThread mainServerClass = true := by
  decide

/-- C9: the port argument goes through Python's `int` conversion, which
accepts surrounding whitespace, an explicit sign, and underscore digit
separators; in particular "-1" passes parsing, so the launch trace still
reaches the socket-bind step with port -1 rather than failing at
argument parsing. -/
theorem claim9_python_int_leniency :
    pythonInt " 8000 " = some 8000 ∧
    pythonInt "+8000" = some 8000 ∧
    pythonInt "-1" = some (-1) ∧
    pythonInt "8_000" = some 8000 ∧
    parsePort ["serve.py", "-1"] = some (-1) ∧
    mainEffects ["serve.py", "-1"] =
      some [Effect.printLine "伺服器運行在 http://127.0.0.1:-1/",
            Effect.printLine mimeLine,
            Effect.createAndBindSocket "127.0.0.1" (-1),
            Effect.serveForever] := by
  refine ⟨by decide, by decide, by decide, by decide, by decide, by decide⟩

/-- C10: on any launch whose port parse succeeds, both startup lines —
the URL line and the MIME-corrections line — occur in the effect trace
strictly before the first socket-creation effect, so both are printed
even when the subsequent bind fails. -/
theorem claim10_prints_before_bind (argv : List String) (es : List Effect)
    (p : Int)
    (h : mainEffects argv = some es) (hp : parsePort argv = some p) :
    Effect.printLine (urlLine p) ∈ es.takeWhile (fun e => !(isBindEffect e)) ∧
    Effect.printLine mimeLine ∈ es.takeWhile (fun e => !(isBindEffect e)) ∧
    Effect.createAndBindSocket "127.0.0.1" p ∈ es := by
  simp only [mainEffects, hp, Option.map_some', Option.some.injEq] at h
  subst h
  refine ⟨?_, ?_, ?_⟩ <;> simp [List.takeWhile, isBindEffect]

/-- C10 witness: the theorem at the default launch trace. -/
theorem claim10_witness :
    Effect.printLine (urlLine 8000) ∈
      [Effect.printLine (urlLine 8000), Effect.printLine mimeLine,
       Effect.createAndBindSocket "127.0.0.1" 8000,
       Effect.serveForever].takeWhile (fun e => !(isBindEffect e)) ∧
    Effect.printLine mimeLine ∈
      [Effect.printLine (urlLine 8000), Effect.printLine mimeLine,
       Effect.createAndBindSocket "127.0.0.1" 8000,
       Effect.serveForever].takeWhile (fun e => !(isBindEffect e)) ∧
    Effect.createAndBindSocket "127.0.0.1" 8000 ∈
      [Effect.printLine (urlLine 8000), Effect.printLine mimeLine,
       Effect.createAndBindSocket "127.0.0.1" 8000, Effect.serveForever] :=
  claim10_prints_before_bind ["serve.py"]
    [Effect.printLine (urlLine 8000), Effect.printLine mimeLine,
     Effect.createAndBindSocket "127.0.0.1" 8000, Effect.serveForever]
    8000 rfl rfl

end Serve
